import Mathlib

/-!
Verification of the session-scoped message-orchestration core of the
aistack Streamlit application: per-agent message logs with deduplicating
append, transient event-listener capture around streamed and non-streamed
agent calls, and the transcript → structured-record extraction pipeline.

Each definition is a shallow embedding of the corresponding Python
function (file and line references in the doc comments).  State is passed
explicitly; the Streamlit session dictionary `st.session_state.messages`
(a `defaultdict(list)` keyed by agent name) is embedded as a total
function `String → List ChatMessage` whose default value is `[]`.
-/

namespace AIStack

/-- A tool invocation record attached to a message
(spec §3 `ToolCallRecord`; carried by `llmling_agent` messages). -/
structure ToolCallRecord where
  tool_name : String
  args : List (String × String)
  result : Option String
  error : Option String
deriving DecidableEq, Repr

/-- A chat message as used by the capture and extraction code:
`role`, `content` and `tool_calls` are the fields the dedup equality and
the transcript rendering read (src/pages/step1.py, src/pages/step2.py).
Optional metadata fields (`model`, `cost_info`, `response_time`) are
omitted: no claim reads them and they do not affect value equality of
messages built alike. -/
structure ChatMessage where
  role : String
  content : String
  tool_calls : List ToolCallRecord := []
deriving DecidableEq, Repr

/-- The per-agent message logs, `st.session_state.messages`:
a `defaultdict(list)` keyed by agent name
(src/components/state.py, `State.messages`). -/
def Logs : Type := String → List ChatMessage

/-- Writing one agent's log, `state.messages[name] = l`. -/
def updateLog (logs : Logs) (a : String) (l : List ChatMessage) : Logs :=
  fun b => if b = a then l else logs b

/-- The deduplicating append performed by the `collect_message` closures
(src/components/chat.py lines 26–29 and 51–54):
`if msg not in messages: messages.append(msg)`. -/
def collect_message (messages : List ChatMessage) (msg : ChatMessage) :
    List ChatMessage :=
  if msg ∈ messages then messages else messages ++ [msg]

/-- One listener firing: the `collect_message` closure for agent `a`
appends `msg` (with dedup) into `state.messages[a]`. -/
def collectInto (logs : Logs) (a : String) (msg : ChatMessage) : Logs :=
  updateLog logs a (collect_message (logs a) msg)

/-- `State.clear_agent_messages` (src/components/state.py lines 75–77):
`self.messages[agent_name] = []`. -/
def clear_agent_messages (logs : Logs) (agent_name : String) : Logs :=
  updateLog logs agent_name []

theorem updateLog_same (logs : Logs) (a : String) (l : List ChatMessage) :
    updateLog logs a l a = l := by
  simp [updateLog]

theorem updateLog_other (logs : Logs) (a b : String) (l : List ChatMessage)
    (h : b ≠ a) : updateLog logs a l b = logs b := by
  simp [updateLog, h]

theorem mem_collect_self (l : List ChatMessage) (m : ChatMessage) :
    m ∈ collect_message l m := by
  unfold collect_message
  split
  · assumption
  · exact List.mem_append_right _ (List.mem_singleton.mpr rfl)

theorem collect_message_of_mem (l : List ChatMessage) (m : ChatMessage)
    (h : m ∈ l) : collect_message l m = l := by
  simp [collect_message, h]

theorem collect_message_of_not_mem (l : List ChatMessage) (m : ChatMessage)
    (h : m ∉ l) : collect_message l m = l ++ [m] := by
  simp [collect_message, h]

/-- Claim C2 (amended): appending the same `ChatMessage` value twice
through the deduplicating `collect_message` path increases the log's
length by exactly one when the message is not already present, and by
zero when it is already present. -/
theorem collect_twice_length (log : List ChatMessage) (m : ChatMessage) :
    (m ∉ log →
      (collect_message (collect_message log m) m).length = log.length + 1) ∧
    (m ∈ log →
      (collect_message (collect_message log m) m).length = log.length) := by
  constructor
  · intro h
    rw [collect_message_of_not_mem log m h,
      collect_message_of_mem _ m (List.mem_append_right _ (List.mem_singleton.mpr rfl))]
    simp
  · intro h
    rw [collect_message_of_mem log m h, collect_message_of_mem log m h]

/-- Witness for C2 (amended) at concrete inputs: the empty log gains one
entry from a double append, a log already holding the message gains
none. -/
theorem collect_twice_length_witness :
    ((⟨"user", "hi", []⟩ : ChatMessage) ∉ ([] : List ChatMessage) ∧
      (collect_message (collect_message [] ⟨"user", "hi", []⟩) ⟨"user", "hi", []⟩).length =
        ([] : List ChatMessage).length + 1) ∧
    ((⟨"user", "hi", []⟩ : ChatMessage) ∈ [(⟨"user", "hi", []⟩ : ChatMessage)] ∧
      (collect_message (collect_message [⟨"user", "hi", []⟩] ⟨"user", "hi", []⟩)
          ⟨"user", "hi", []⟩).length = [(⟨"user", "hi", []⟩ : ChatMessage)].length) :=
  ⟨⟨by decide, (collect_twice_length [] ⟨"user", "hi", []⟩).1 (by decide)⟩,
   ⟨by decide, (collect_twice_length [⟨"user", "hi", []⟩] ⟨"user", "hi", []⟩).2 (by decide)⟩⟩

/-- Claim C2 as stated is false: appending the same message twice to a
log that already contains it leaves the length unchanged, not larger by
one (src/components/chat.py lines 26–29: `if msg not in messages`). -/
theorem collect_twice_length_counterexample :
    ¬ ((collect_message (collect_message [(⟨"user", "hi", []⟩ : ChatMessage)]
          ⟨"user", "hi", []⟩) ⟨"user", "hi", []⟩).length =
        [(⟨"user", "hi", []⟩ : ChatMessage)].length + 1) := by
  decide

/-! ## Event-listener capture

`psygnal` signals on the (session-persistent) agent objects:
`agent.message_sent`, `agent.message_received`, `chat_agent.tool_used`.
Each `connect` appends a callback slot; `disconnect` removes that slot.
Distinct invocations of `stream_response` / `return_response` create
distinct `collect_message` closures, embedded here as distinct `Nat`
listener identifiers. -/

/-- The listener registrations held by one agent object's three signals
(src/components/chat.py lines 32–33, 40–41; src/pages/step1.py
lines 66, 69). -/
structure AgentConn where
  message_sent : List Nat
  message_received : List Nat
  tool_used : List Nat
deriving DecidableEq, Repr

/-- The mutable session state a capture touches: one agent object's
signal registrations plus the per-agent message logs. -/
structure SessionState where
  conn : AgentConn
  logs : Logs

/-- `agent.message_sent.connect(collect_message)` followed by
`agent.message_received.connect(collect_message)`
(src/components/chat.py lines 32–33 / 57–58). -/
def connectPair (lid : Nat) (c : AgentConn) : AgentConn :=
  { c with
    message_sent := c.message_sent ++ [lid]
    message_received := c.message_received ++ [lid] }

/-- `agent.message_sent.disconnect(collect_message)` followed by
`agent.message_received.disconnect(collect_message)`
(src/components/chat.py lines 40–41 / 63–64). -/
def disconnectPair (lid : Nat) (c : AgentConn) : AgentConn :=
  { c with
    message_sent := c.message_sent.erase lid
    message_received := c.message_received.erase lid }

/-- The two message channels an agent emits completion events on. -/
inductive Channel
  | sent
  | received
deriving DecidableEq, Repr

/-- The listener list a given channel's signal holds. -/
def channelListeners (c : AgentConn) : Channel → List Nat
  | Channel.sent => c.message_sent
  | Channel.received => c.message_received

/-- One message event emitted by the agent during a call. -/
structure AgentEvent where
  channel : Channel
  msg : ChatMessage
deriving DecidableEq, Repr

/-- Firing one channel's signal: every connected listener is a
`collect_message` closure for agent `a`, so each runs the deduplicating
append into `state.messages[a]`. -/
def fireChannel (a : String) (msg : ChatMessage) (listeners : List Nat)
    (logs : Logs) : Logs :=
  listeners.foldl (fun lg _ => collectInto lg a msg) logs

/-- One event delivery: fire the listeners of the event's channel. -/
def fireEvent (a : String) (e : AgentEvent) (s : SessionState) : SessionState :=
  { s with logs := fireChannel a e.msg (channelListeners s.conn e.channel) s.logs }

/-- The events the agent emits while the call body runs
(`async with agent.run_stream(...)` / `await agent.run(...)`),
delivered in arrival order. -/
def runBody (a : String) (events : List AgentEvent) (s : SessionState) :
    SessionState :=
  events.foldl (fun st e => fireEvent a e st) s

/-- Outcome of the call body: normal return, raised exception, or
cancellation (in Python, cancellation raises `CancelledError`, so the
`finally` block runs in all three cases). -/
inductive Outcome
  | normal
  | raised
  | cancelled
deriving DecidableEq, Repr

/-- `stream_response` (src/components/chat.py lines 18–41): connect the
`collect_message` closure to both message signals, consume the stream —
forwarding each chunk to the placeholder and letting emitted events fire
the listeners — and disconnect both in `finally`, for every outcome.
`events` is whatever the agent emitted before the body finished (a
prefix of the full emission on error/cancellation); `chunks` are the
text fragments the loop forwarded, returned here as the delivered
sequence, in arrival order. -/
def stream_response (a : String) (lid : Nat) (events : List AgentEvent)
    (outcome : Outcome) (chunks : List String) (s : SessionState) :
    SessionState × List String × Outcome :=
  let s1 : SessionState := { s with conn := connectPair lid s.conn }
  let s2 := runBody a events s1
  let delivered := chunks
  let s3 : SessionState := { s2 with conn := disconnectPair lid s2.conn }
  (s3, delivered, outcome)

/-- `return_response` (src/components/chat.py lines 44–64): same capture
discipline, body is `await agent.run(prompt)` whose result is discarded
(the function is annotated `-> None` and returns nothing), messages are
collected via the events; the `finally` disconnect runs for every
outcome. -/
def return_response (a : String) (lid : Nat) (events : List AgentEvent)
    (outcome : Outcome) (s : SessionState) :
    SessionState × Option ChatMessage × Outcome :=
  let s1 : SessionState := { s with conn := connectPair lid s.conn }
  let s2 := runBody a events s1
  let s3 : SessionState := { s2 with conn := disconnectPair lid s2.conn }
  (s3, none, outcome)

/-- The ad-hoc capture in `main_async` (src/pages/step1.py lines 62–70):
`chat_agent.tool_used.connect(render)`, then `await chat_agent.run(prompt)`
and `st.markdown(...)`, then `chat_agent.tool_used.disconnect(render)` —
with no `try/finally`: if `run` raises (or is cancelled), control jumps
to the surrounding `except` handler and the `disconnect` line never
executes. -/
def step1_tool_capture (lid : Nat) (outcome : Outcome) (c : AgentConn) :
    AgentConn × Outcome :=
  let c1 : AgentConn := { c with tool_used := c.tool_used ++ [lid] }
  match outcome with
  | Outcome.normal =>
      ({ c1 with tool_used := c1.tool_used.erase lid }, Outcome.normal)
  | o => (c1, o)

theorem erase_append_singleton (x : Nat) (l : List Nat) (h : x ∉ l) :
    (l ++ [x]).erase x = l := by
  induction l with
  | nil => simp
  | cons a t ih =>
      have hax : ¬ (a == x) = true := by
        simp only [beq_iff_eq]
        intro hc
        exact h (hc ▸ List.mem_cons_self a t)
      have hxt : x ∉ t := fun hm => h (List.mem_cons_of_mem a hm)
      simp only [List.cons_append, List.erase_cons, hax, if_neg]
      rw [ih hxt]
      simp [hax]

theorem fireEvent_conn (a : String) (e : AgentEvent) (s : SessionState) :
    (fireEvent a e s).conn = s.conn := rfl

theorem runBody_conn (a : String) (events : List AgentEvent) (s : SessionState) :
    (runBody a events s).conn = s.conn := by
  induction events generalizing s with
  | nil => rfl
  | cons e es ih => simpa [runBody, List.foldl_cons] using ih (fireEvent a e s)

theorem disconnect_connect_of_fresh (lid : Nat) (c : AgentConn)
    (hs : lid ∉ c.message_sent) (hr : lid ∉ c.message_received) :
    disconnectPair lid (connectPair lid c) = c := by
  simp [disconnectPair, connectPair, erase_append_singleton _ _ hs,
    erase_append_singleton _ _ hr]

/-- Claim C1 (amended): the captures in `stream_response` and
`return_response` unregister their listeners on every outcome — the
`try/finally` restores the agent's listener registrations exactly, for
normal return, raised error and mid-stream cancellation alike, whatever
events fired in between; the `tool_used` capture in step1's
`main_async` restores them only on normal return. -/
theorem capture_restores_listeners (a : String) (lid : Nat)
    (events : List AgentEvent) (outcome : Outcome) (chunks : List String)
    (s : SessionState) (hs : lid ∉ s.conn.message_sent)
    (hr : lid ∉ s.conn.message_received) :
    (stream_response a lid events outcome chunks s).1.conn = s.conn ∧
    (return_response a lid events outcome s).1.conn = s.conn ∧
    (lid ∉ s.conn.tool_used →
      (step1_tool_capture lid Outcome.normal s.conn).1 = s.conn) := by
  refine ⟨?_, ?_, ?_⟩
  · show disconnectPair lid (runBody a events
      { s with conn := connectPair lid s.conn }).conn = s.conn
    rw [runBody_conn]
    exact disconnect_connect_of_fresh lid s.conn hs hr
  · show disconnectPair lid (runBody a events
      { s with conn := connectPair lid s.conn }).conn = s.conn
    rw [runBody_conn]
    exact disconnect_connect_of_fresh lid s.conn hs hr
  · intro ht
    simp [step1_tool_capture, erase_append_singleton _ _ ht]

/-- Witness for C1 (amended): a concrete capture on agent `"Dieter"`
with listener id 0, one emitted event and a raised outcome restores the
(initially empty) listener registrations. -/
theorem capture_restores_listeners_witness :
    (0 ∉ (AgentConn.mk [] [] []).message_sent ∧
      0 ∉ (AgentConn.mk [] [] []).message_received) ∧
    ((stream_response "Dieter" 0 [⟨Channel.received, ⟨"assistant", "hi", []⟩⟩]
        Outcome.raised ["hi"] ⟨AgentConn.mk [] [] [], fun _ => []⟩).1.conn =
      AgentConn.mk [] [] [] ∧
      (return_response "Dieter" 0 [⟨Channel.received, ⟨"assistant", "hi", []⟩⟩]
        Outcome.raised ⟨AgentConn.mk [] [] [], fun _ => []⟩).1.conn =
      AgentConn.mk [] [] [] ∧
      (0 ∉ (AgentConn.mk [] [] []).tool_used →
        (step1_tool_capture 0 Outcome.normal (AgentConn.mk [] [] [])).1 =
          AgentConn.mk [] [] [])) :=
  ⟨⟨by decide, by decide⟩,
    capture_restores_listeners "Dieter" 0
      [⟨Channel.received, ⟨"assistant", "hi", []⟩⟩] Outcome.raised ["hi"]
      ⟨AgentConn.mk [] [] [], fun _ => []⟩ (by decide) (by decide)⟩

/-- Claim C1 as stated is false: the `tool_used` capture in step1's
`main_async` (src/pages/step1.py lines 62–70) has no `try/finally`, so
when `chat_agent.run` raises, the `render` listener registered before
the call is never unregistered — the agent's listener set after the
call differs from the one before. -/
theorem capture_restores_listeners_counterexample :
    ¬ ((step1_tool_capture 0 Outcome.raised (AgentConn.mk [] [] [])).1 =
        AgentConn.mk [] [] []) := by
  decide

theorem collectInto_of_mem (logs : Logs) (a : String) (m : ChatMessage)
    (h : m ∈ logs a) : collectInto logs a m = logs := by
  funext b
  by_cases hb : b = a
  · subst hb
    rw [collectInto, collect_message_of_mem _ _ h, updateLog_same]
  · rw [collectInto, updateLog_other _ _ _ _ hb]

theorem collectInto_self_mem (logs : Logs) (a : String) (m : ChatMessage) :
    m ∈ collectInto logs a m a := by
  rw [collectInto, updateLog_same]
  exact mem_collect_self _ _

theorem collectInto_other (logs : Logs) (a b : String) (m : ChatMessage)
    (h : b ≠ a) : collectInto logs a m b = logs b :=
  updateLog_other _ _ _ _ h

theorem fireChannel_of_mem (a : String) (m : ChatMessage) (listeners : List Nat)
    (logs : Logs) (h : m ∈ logs a) : fireChannel a m listeners logs = logs := by
  induction listeners with
  | nil => rfl
  | cons x xs ih =>
      show fireChannel a m xs (collectInto logs a m) = logs
      rw [collectInto_of_mem _ _ _ h]
      exact ih

theorem fireChannel_cons_eq_collect (a : String) (m : ChatMessage)
    (x : Nat) (xs : List Nat) (logs : Logs) :
    fireChannel a m (x :: xs) logs = collectInto logs a m := by
  show fireChannel a m xs (collectInto logs a m) = collectInto logs a m
  exact fireChannel_of_mem a m xs _ (collectInto_self_mem logs a m)

theorem fireChannel_other (a : String) (m : ChatMessage) (listeners : List Nat)
    (logs : Logs) (b : String) (h : b ≠ a) :
    fireChannel a m listeners logs b = logs b := by
  induction listeners generalizing logs with
  | nil => rfl
  | cons x xs ih =>
      show fireChannel a m xs (collectInto logs a m) b = logs b
      rw [ih, collectInto_other _ _ _ _ h]

theorem fireEvent_logs_other (a : String) (e : AgentEvent) (s : SessionState)
    (b : String) (h : b ≠ a) : (fireEvent a e s).logs b = s.logs b :=
  fireChannel_other _ _ _ _ _ h

theorem runBody_logs_other (a : String) (events : List AgentEvent)
    (s : SessionState) (b : String) (h : b ≠ a) :
    (runBody a events s).logs b = s.logs b := by
  induction events generalizing s with
  | nil => rfl
  | cons e es ih =>
      show (runBody a es (fireEvent a e s)).logs b = s.logs b
      rw [ih (fireEvent a e s), fireEvent_logs_other _ _ _ _ h]

theorem fireChannel_eq_collect_of_ne_nil (a : String) (m : ChatMessage)
    (listeners : List Nat) (logs : Logs) (h : listeners ≠ []) :
    fireChannel a m listeners logs = collectInto logs a m := by
  cases listeners with
  | nil => exact absurd rfl h
  | cons x xs => exact fireChannel_cons_eq_collect a m x xs logs

/-- Modelled from the spec: the `AgentHandle` streaming contract
(spec §6, §4.3) — the underlying `llmling_agent` library, external to
this repository, yields the incremental text fragments and, once the
stream finishes, emits the completed message, whose `content` is the
fragments' concatenation, through the completion notification the
listeners are connected to. -/
def assembledMessage (fragments : List String) : ChatMessage :=
  { role := "assistant", content := String.join fragments, tool_calls := [] }

/-- The event sequence a completed stream delivers to the registered
listeners: the single completed-message notification carrying the
assembled message (spec §4.3: the agent emits it when streaming
finishes). -/
def streamEvents (fragments : List String) : List AgentEvent :=
  [⟨Channel.received, assembledMessage fragments⟩]

/-- Claim C6: on a completed stream, the chunks are delivered in arrival
order, and the message captured into the agent's log is the assembled
message, whose `content` is exactly the concatenation of the delivered
fragments F₁..Fₙ; the final log is the dedup-append of that message onto
the prior log. -/
theorem streaming_reconstruction (a : String) (lid : Nat)
    (fragments : List String) (s : SessionState) :
    (stream_response a lid (streamEvents fragments) Outcome.normal fragments
        s).2.1 = fragments ∧
    (stream_response a lid (streamEvents fragments) Outcome.normal fragments
        s).1.logs a = collect_message (s.logs a) (assembledMessage fragments) ∧
    assembledMessage fragments ∈
      (stream_response a lid (streamEvents fragments) Outcome.normal fragments
        s).1.logs a ∧
    (assembledMessage fragments).content = String.join fragments := by
  have hlog : (stream_response a lid (streamEvents fragments) Outcome.normal
      fragments s).1.logs a = collect_message (s.logs a) (assembledMessage fragments) := by
    show (fireEvent a ⟨Channel.received, assembledMessage fragments⟩
      ⟨connectPair lid s.conn, s.logs⟩).logs a = _
    show fireChannel a (assembledMessage fragments)
      (s.conn.message_received ++ [lid]) s.logs a = _
    rw [fireChannel_eq_collect_of_ne_nil _ _ _ _ (by simp), collectInto,
      updateLog_same]
  refine ⟨rfl, hlog, ?_, rfl⟩
  rw [hlog]
  exact mem_collect_self _ _

/-- Claim C7 (amended): `return_response` performs the same capture
discipline as the streaming variant and takes no sink, but it returns
`None` — not the final message; the final message reaches the caller
only through the agent's log, where the completion event's dedup-append
has stored it. -/
theorem run_variant_capture (a : String) (lid : Nat) (m : ChatMessage)
    (s : SessionState) :
    (return_response a lid [⟨Channel.received, m⟩] Outcome.normal s).2.1 =
      none ∧
    (return_response a lid [⟨Channel.received, m⟩] Outcome.normal s).1.logs a =
      collect_message (s.logs a) m ∧
    m ∈ (return_response a lid [⟨Channel.received, m⟩] Outcome.normal s).1.logs a := by
  have hlog : (return_response a lid [⟨Channel.received, m⟩] Outcome.normal
      s).1.logs a = collect_message (s.logs a) m := by
    show (fireEvent a ⟨Channel.received, m⟩
      ⟨connectPair lid s.conn, s.logs⟩).logs a = _
    show fireChannel a m (s.conn.message_received ++ [lid]) s.logs a = _
    rw [fireChannel_eq_collect_of_ne_nil _ _ _ _ (by simp), collectInto,
      updateLog_same]
  refine ⟨rfl, hlog, ?_⟩
  rw [hlog]
  exact mem_collect_self _ _

/-- Claim C7 as stated is false: the non-streaming variant
`return_response` is annotated `-> None` and discards the result of
`await agent.run(prompt)` (src/components/chat.py lines 44–64), so at
this concrete call it does not return the final message to its
caller. -/
theorem run_variant_counterexample :
    ¬ ((return_response "Dieter" 0
          [⟨Channel.received, ⟨"assistant", "hello", []⟩⟩] Outcome.normal
          ⟨AgentConn.mk [] [] [], fun _ => []⟩).2.1 =
        some ⟨"assistant", "hello", []⟩) := by
  intro h
  exact Option.noConfusion h

/-- The spec's error for a re-entrant capture attempt (spec §7); the
source defines no such error. -/
inductive CaptureError
  | AlreadyCapturing
deriving DecidableEq, Repr

/-- The start of a capture (src/components/chat.py lines 31–33): the
code performs no re-entrancy check — it unconditionally connects the
`collect_message` closure to both message signals and never fails.
`Except` makes room for the failure mode the spec demands; the code
always returns `ok`. -/
def startCapture (lid : Nat) (c : AgentConn) : Except CaptureError AgentConn :=
  Except.ok (connectPair lid c)

/-- Claim C3 as stated is false: with a capture already active (listener
id 0 registered on both message signals), starting a second capture
registers the listener pair a second time and succeeds — it does not
fail with `AlreadyCapturing`. -/
theorem reentrant_capture_counterexample :
    startCapture 1 (connectPair 0 (AgentConn.mk [] [] [])) =
      Except.ok (connectPair 1 (connectPair 0 (AgentConn.mk [] [] []))) ∧
    ¬ (startCapture 1 (connectPair 0 (AgentConn.mk [] [] [])) =
        Except.error CaptureError.AlreadyCapturing) := by
  exact ⟨rfl, fun h => Except.noConfusion h⟩

/-- Claim C3 (amended): a second capture started for the same agent
while a prior one is active does not fail — no `AlreadyCapturing` check
exists — and registers the listener pair a second time; nevertheless the
first call's eventual result is not corrupted: a completion event fired
under the doubled registration still dedup-appends exactly one copy of
the message (same log as a single capture), and after each call removes
its own pair the agent's listener registrations are back to the initial
ones. -/
theorem reentrant_capture_behaviour (s : SessionState) (a : String)
    (lid1 lid2 : Nat) (m : ChatMessage)
    (h1s : lid1 ∉ s.conn.message_sent) (h1r : lid1 ∉ s.conn.message_received)
    (h2s : lid2 ∉ s.conn.message_sent) (h2r : lid2 ∉ s.conn.message_received)
    (hne : lid2 ≠ lid1) :
    startCapture lid2 (connectPair lid1 s.conn) =
      Except.ok (connectPair lid2 (connectPair lid1 s.conn)) ∧
    (fireEvent a ⟨Channel.received, m⟩
        ⟨connectPair lid2 (connectPair lid1 s.conn), s.logs⟩).logs a =
      collect_message (s.logs a) m ∧
    disconnectPair lid1 (disconnectPair lid2
      (connectPair lid2 (connectPair lid1 s.conn))) = s.conn := by
  refine ⟨rfl, ?_, ?_⟩
  · show fireChannel a m ((s.conn.message_received ++ [lid1]) ++ [lid2])
      s.logs a = _
    rw [fireChannel_eq_collect_of_ne_nil _ _ _ _ (by simp), collectInto,
      updateLog_same]
  · have hs2 : lid2 ∉ s.conn.message_sent ++ [lid1] := by
      intro hmem
      rcases List.mem_append.mp hmem with h | h
      · exact h2s h
      · exact hne (List.mem_singleton.mp h)
    have hr2 : lid2 ∉ s.conn.message_received ++ [lid1] := by
      intro hmem
      rcases List.mem_append.mp hmem with h | h
      · exact h2r h
      · exact hne (List.mem_singleton.mp h)
    simp only [disconnectPair, connectPair]
    rw [erase_append_singleton lid2 _ hs2, erase_append_singleton lid2 _ hr2,
      erase_append_singleton lid1 _ h1s, erase_append_singleton lid1 _ h1r]

/-- Witness for C3 (amended) at concrete inputs: listener ids 0 and 1 on
agent `"Dieter"` with initially empty registrations and an empty log. -/
theorem reentrant_capture_behaviour_witness :
    (0 ∉ (AgentConn.mk [] [] []).message_sent ∧
      0 ∉ (AgentConn.mk [] [] []).message_received ∧
      1 ∉ (AgentConn.mk [] [] []).message_sent ∧
      1 ∉ (AgentConn.mk [] [] []).message_received ∧ (1 : Nat) ≠ 0) ∧
    (startCapture 1 (connectPair 0 (AgentConn.mk [] [] [])) =
        Except.ok (connectPair 1 (connectPair 0 (AgentConn.mk [] [] []))) ∧
      (fireEvent "Dieter" ⟨Channel.received, ⟨"assistant", "hi", []⟩⟩
          ⟨connectPair 1 (connectPair 0 (AgentConn.mk [] [] [])),
            fun _ => []⟩).logs "Dieter" =
        collect_message ((fun _ => ([] : List ChatMessage)) "Dieter")
          ⟨"assistant", "hi", []⟩ ∧
      disconnectPair 0 (disconnectPair 1
        (connectPair 1 (connectPair 0 (AgentConn.mk [] [] [])))) =
        AgentConn.mk [] [] []) :=
  ⟨⟨by decide, by decide, by decide, by decide, by decide⟩,
    reentrant_capture_behaviour ⟨AgentConn.mk [] [] [], fun _ => []⟩ "Dieter"
      0 1 ⟨"assistant", "hi", []⟩ (by decide) (by decide) (by decide)
      (by decide) (by decide)⟩

/-- Claim C9: `clear_agent_messages a` empties exactly agent `a`'s log
and leaves every other agent's log unchanged; a deduplicating capture
append for agent `a` leaves every other agent's log unchanged; and a
whole streamed capture on agent `a` — whatever events fire and however
it ends — leaves every other agent's log unchanged. -/
theorem clear_and_capture_isolation (logs : Logs) (a b : String)
    (m : ChatMessage) (lid : Nat) (events : List AgentEvent)
    (outcome : Outcome) (chunks : List String) (c : AgentConn) (h : b ≠ a) :
    clear_agent_messages logs a a = [] ∧
    clear_agent_messages logs a b = logs b ∧
    collectInto logs a m b = logs b ∧
    (stream_response a lid events outcome chunks ⟨c, logs⟩).1.logs b = logs b := by
  refine ⟨updateLog_same _ _ _, updateLog_other _ _ _ _ h,
    collectInto_other _ _ _ _ h, ?_⟩
  show (runBody a events ⟨connectPair lid c, logs⟩).logs b = logs b
  exact runBody_logs_other _ _ _ _ h

/-- Witness for C9 at concrete inputs: clearing agent `"Dieter"`'s log
and streaming on `"Dieter"` leave agent `"Uschi"`'s log untouched. -/
theorem clear_and_capture_isolation_witness :
    ("Uschi" ≠ "Dieter" ∧
      clear_agent_messages (fun _ => [⟨"user", "hi", []⟩]) "Dieter" "Dieter" = []) ∧
    (clear_agent_messages (fun _ => [⟨"user", "hi", []⟩]) "Dieter" "Uschi" =
        [⟨"user", "hi", []⟩] ∧
      collectInto (fun _ => [⟨"user", "hi", []⟩]) "Dieter" ⟨"assistant", "yo", []⟩
          "Uschi" = [⟨"user", "hi", []⟩] ∧
      (stream_response "Dieter" 0 [⟨Channel.received, ⟨"assistant", "yo", []⟩⟩]
          Outcome.normal ["yo"]
          ⟨AgentConn.mk [] [] [], fun _ => [⟨"user", "hi", []⟩]⟩).1.logs "Uschi" =
        [⟨"user", "hi", []⟩]) := by
  have h := clear_and_capture_isolation (fun _ => [⟨"user", "hi", []⟩]) "Dieter"
    "Uschi" ⟨"assistant", "yo", []⟩ 0
    [⟨Channel.received, ⟨"assistant", "yo", []⟩⟩] Outcome.normal ["yo"]
    (AgentConn.mk [] [] []) (by decide)
  exact ⟨⟨by decide, h.1⟩, h.2.1, h.2.2.1, h.2.2.2⟩

/-! ## Extraction pipeline (src/pages/step2.py, src/config.py) -/

/-- Python's `str.upper()` as used on the role strings
(src/pages/step2.py line 24, `msg.role.upper()`): uppercase every
character. -/
def strUpper (s : String) : String := String.mk (s.data.map Char.toUpper)

/-- The transcript rendering of `process_chat_history`
(src/pages/step2.py line 24):
`"\n\n".join(f"{msg.role.upper()}: {msg.content}" for msg in chat_messages)`. -/
def render_transcript (msgs : List ChatMessage) : String :=
  String.intercalate "\n\n"
    (msgs.map (fun m => strUpper m.role ++ ": " ++ m.content))

/-- The instruction prompt handed to the extractor agent
(src/pages/step2.py lines 27–32): fixed template with the rendered
transcript embedded after `CHAT HISTORY:`. -/
def build_prompt (msgs : List ChatMessage) : String :=
  "Based on the following chat conversation, create a ticket for our ticket system. " ++
  "Extract relevant information like the issue, priority, and any important details. " ++
  "\n\nCHAT HISTORY:\n" ++ render_transcript msgs ++ "\n\n" ++
  "Please create a structured ticket with appropriate fields."

/-- The fixed three-message log of the extraction-determinism property
(spec §8). -/
def fixedLog : List ChatMessage :=
  [⟨"user", "need a login page", []⟩,
   ⟨"assistant", "priority?", []⟩,
   ⟨"user", "high priority, by Friday", []⟩]

theorem intercalate_go_acc (sep : String) (l : List String) :
    ∀ acc b, String.intercalate.go acc sep (b :: l) =
      acc ++ sep ++ String.intercalate.go b sep l := by
  induction l with
  | nil => intro acc b; rfl
  | cons c cs ih =>
      intro acc b
      show String.intercalate.go (acc ++ sep ++ b) sep (c :: cs) = _
      rw [ih (acc ++ sep ++ b) c, ih b c]
      simp [String.append_assoc]

theorem intercalate_cons_cons (sep a b : String) (t : List String) :
    String.intercalate sep (a :: b :: t) =
      a ++ sep ++ String.intercalate sep (b :: t) := by
  show String.intercalate.go a sep (b :: t) = _
  rw [intercalate_go_acc]
  rfl

/-- Claim C4: the transcript renders each message as
`"{ROLE_UPPER}: {content}"`, messages joined by a blank line in log
order; on the fixed three-message log the rendering is exactly the
expected string, and that exact string is embedded in the extractor
prompt. -/
theorem transcript_rendering :
    (∀ (m : ChatMessage) (rest : List ChatMessage), rest ≠ [] →
      render_transcript (m :: rest) =
        strUpper m.role ++ ": " ++ m.content ++ "\n\n" ++
          render_transcript rest) ∧
    (∀ m : ChatMessage,
      render_transcript [m] = strUpper m.role ++ ": " ++ m.content) ∧
    render_transcript fixedLog =
      "USER: need a login page\n\nASSISTANT: priority?\n\nUSER: high priority, by Friday" ∧
    (∃ pre post, build_prompt fixedLog =
      pre ++
        "USER: need a login page\n\nASSISTANT: priority?\n\nUSER: high priority, by Friday" ++
        post) := by
  have hfixed : render_transcript fixedLog =
      "USER: need a login page\n\nASSISTANT: priority?\n\nUSER: high priority, by Friday" := by
    decide
  refine ⟨?_, ?_, hfixed, ?_⟩
  · intro m rest hrest
    cases rest with
    | nil => exact absurd rfl hrest
    | cons r rs =>
        show String.intercalate "\n\n" (_ :: _ :: _) = _
        rw [intercalate_cons_cons]
        rfl
  · intro m
    rfl
  · refine ⟨"Based on the following chat conversation, create a ticket for our ticket system. " ++
      "Extract relevant information like the issue, priority, and any important details. " ++
      "\n\nCHAT HISTORY:\n", "\n\n" ++
      "Please create a structured ticket with appropriate fields.", ?_⟩
    show _ ++ render_transcript fixedLog ++ _ ++ _ = _
    rw [hfixed]
    simp [String.append_assoc]

/-- Witness for C4 at a concrete input: the blank-line-joined unfolding
on a two-message log. -/
theorem transcript_rendering_witness :
    ([(⟨"assistant", "priority?", []⟩ : ChatMessage)] ≠ []) ∧
    render_transcript
        [⟨"user", "need a login page", []⟩, ⟨"assistant", "priority?", []⟩] =
      strUpper "user" ++ ": " ++ "need a login page" ++ "\n\n" ++
        render_transcript [⟨"assistant", "priority?", []⟩] :=
  ⟨by decide,
    transcript_rendering.1 ⟨"user", "need a login page", []⟩
      [⟨"assistant", "priority?", []⟩] (by decide)⟩

/-- `FormData` (src/config.py lines 16–34): the structured ticket
record; every one of the five schema fields declares the empty string
as its default. -/
structure FormData where
  title : String := ""
  description : String := ""
  requirements : String := ""
  constraints : String := ""
  additional_info : String := ""
deriving DecidableEq, Repr

/-- An extractor output before schema validation: each `FormData` field
either populated or missing. -/
structure RawFormOutput where
  title : Option String := none
  description : Option String := none
  requirements : Option String := none
  constraints : Option String := none
  additional_info : Option String := none
deriving DecidableEq, Repr

/-- Pydantic's per-field validation step: a missing field is an error
unless the schema declares a default, in which case the default is
used. -/
def validateField (value dflt : Option String) : Except String String :=
  match value with
  | some v => Except.ok v
  | none =>
    match dflt with
    | some d => Except.ok d
    | none => Except.error "Field required"

/-- Validating an extractor output against the `FormData` schema: each
of the five fields carries the default `""` declared in src/config.py
lines 16–34. -/
def validateFormData (o : RawFormOutput) : Except String FormData := do
  let t ← validateField o.title (some "")
  let d ← validateField o.description (some "")
  let r ← validateField o.requirements (some "")
  let c ← validateField o.constraints (some "")
  let ai ← validateField o.additional_info (some "")
  Except.ok ⟨t, d, r, c, ai⟩

/-- Claim C10: because every `FormData` field has an empty-string
default, schema validation never fails for a missing field — every raw
output validates, the all-missing output validates to the record whose
five fields are all `""`, and that record is `FormData`'s default
instance. -/
theorem formdata_defaults :
    (∀ o : RawFormOutput, validateFormData o =
      Except.ok ⟨o.title.getD "", o.description.getD "", o.requirements.getD "",
        o.constraints.getD "", o.additional_info.getD ""⟩) ∧
    validateFormData {} = Except.ok ⟨"", "", "", "", ""⟩ ∧
    ({} : FormData) = ⟨"", "", "", "", ""⟩ := by
  refine ⟨?_, rfl, rfl⟩
  intro o
  obtain ⟨t, d, r, c, ai⟩ := o
  cases t <;> cases d <;> cases r <;> cases c <;> cases ai <;> rfl

/-- Modelled from the spec: `SessionStore.setRecord` (spec §4.1, §3) —
the storing of the validated record into the session
(`st.session_state.completed_form`, declared by the getter
`State.completed_form`, src/components/state.py lines 109–112) is
performed by `components/primitives.py` (`render_model_form`), which is
not under src; per the spec it replaces any previous record atomically,
as a whole. -/
def setRecord (record : FormData) (_prev : Option FormData) :
    Option FormData :=
  some record

/-- Outcome of the step-2 ticket flow: either the empty-history guard
fired (the spec's `EmptyHistory`: warning shown, early return) or a
ticket record was produced. -/
inductive ExtractOutcome
  | emptyHistory
  | ticket (record : FormData)
deriving DecidableEq, Repr

/-- `main_async` of src/pages/step2.py (lines 51–64) around
`process_chat_history` (lines 21–39): with an empty chat log, show the
warning and return before any agent call (the spec's `EmptyHistory`);
otherwise build the instruction prompt from the rendered transcript,
run the extractor agent on it exactly once, hand the resulting record
on, and store it via `setRecord`.  Returns the outcome, the number of
extractor-agent invocations, and the stored record after the flow. -/
def step2_main (msgs : List ChatMessage) (extractor : String → FormData)
    (stored : Option FormData) : ExtractOutcome × Nat × Option FormData :=
  if msgs = [] then (ExtractOutcome.emptyHistory, 0, stored)
  else
    (ExtractOutcome.ticket (extractor (build_prompt msgs)), 1,
      setRecord (extractor (build_prompt msgs)) stored)

/-- Claim C5: extraction requested on a log with zero entries takes the
empty-history path — the spec's `EmptyHistory`, surfaced as the warning
and early return — and the extractor agent is invoked zero times. -/
theorem empty_history_guard (extractor : String → FormData)
    (stored : Option FormData) :
    step2_main [] extractor stored = (ExtractOutcome.emptyHistory, 0, stored) :=
  rfl

/-- Claim C8: on every successful extraction the record produced by the
extractor is both the one handed back and the one stored — stored as
`some record` in one piece, whatever record was stored before
(atomic whole-record replacement). -/
theorem extraction_stores_record (msgs : List ChatMessage)
    (extractor : String → FormData) (stored : Option FormData)
    (h : msgs ≠ []) :
    (step2_main msgs extractor stored).1 =
      ExtractOutcome.ticket (extractor (build_prompt msgs)) ∧
    (step2_main msgs extractor stored).2.2 =
      some (extractor (build_prompt msgs)) ∧
    (step2_main msgs extractor stored).2.1 = 1 := by
  simp [step2_main, h, setRecord]

/-- Witness for C8 at concrete inputs: the fixed three-message log, a
constant extractor, and a previously stored record that gets wholly
replaced. -/
theorem extraction_stores_record_witness :
    fixedLog ≠ [] ∧
    ((step2_main fixedLog (fun _ => ⟨"t", "d", "r", "c", "a"⟩)
        (some ⟨"old", "old", "old", "old", "old"⟩)).1 =
      ExtractOutcome.ticket ⟨"t", "d", "r", "c", "a"⟩ ∧
    (step2_main fixedLog (fun _ => ⟨"t", "d", "r", "c", "a"⟩)
        (some ⟨"old", "old", "old", "old", "old"⟩)).2.2 =
      some ⟨"t", "d", "r", "c", "a"⟩ ∧
    (step2_main fixedLog (fun _ => ⟨"t", "d", "r", "c", "a"⟩)
        (some ⟨"old", "old", "old", "old", "old"⟩)).2.1 = 1) :=
  ⟨by decide,
    extraction_stores_record fixedLog (fun _ => ⟨"t", "d", "r", "c", "a"⟩)
      (some ⟨"old", "old", "old", "old", "old"⟩) (by decide)⟩

end AIStack
